import Mathlib

/-!
Shallow embedding of the teletodc message-forwarding bot.

The configuration store (src/db_schema.py) is an SQLite database; it is
modelled as lists of rows, one list per table, kept in rowid (insertion)
order, together with the AUTOINCREMENT counters for the two surrogate keys
(webhook_id, mapping_id).  Where the source issues a SELECT followed by
`fetchone()` without ORDER BY, SQLite scans the unique index
(topic_id, webhook_id) of topic_webhook_mapping, so the first row returned
is the one with the smallest webhook_id among the rows of the given topic;
the model makes that explicit via a minimum.

Note that none of the connections in db_schema.py ever issue
`PRAGMA foreign_keys = ON`, so SQLite does not enforce the declared
FOREIGN KEY constraints at runtime; the model therefore performs no
foreign-key checks in the write operations.

The router and delivery engine (src/bot.py, handle_new_message and
forward_to_webhook) are modelled as pure functions producing the list of
HTTP POST requests that a run would issue; the HTTP response handling is
modelled by classifyResponse.
-/

namespace TeleToDC

/-- Row of the `groups` table: group_id INTEGER PRIMARY KEY, group_name. -/
structure GroupRow where
  group_id : Int
  group_name : String
  deriving DecidableEq, Repr

/-- Row of the `topics` table: topic_id INTEGER PRIMARY KEY, group_id, topic_name. -/
structure TopicRow where
  topic_id : Int
  group_id : Int
  topic_name : String
  deriving DecidableEq, Repr

/-- Row of the `webhooks` table: webhook_id INTEGER PRIMARY KEY AUTOINCREMENT, url, description. -/
structure WebhookRow where
  webhook_id : Nat
  url : String
  description : Option String
  deriving DecidableEq, Repr

/-- Row of the `topic_webhook_mapping` table: mapping_id AUTOINCREMENT, topic_id, webhook_id,
UNIQUE(topic_id, webhook_id). -/
structure MappingRow where
  mapping_id : Nat
  topic_id : Int
  webhook_id : Nat
  deriving DecidableEq, Repr

/-- The SQLite database of db_schema.py: one list per table in rowid order,
plus the AUTOINCREMENT counters for webhook_id and mapping_id. -/
structure Store where
  groups : List GroupRow
  topics : List TopicRow
  webhooks : List WebhookRow
  mappings : List MappingRow
  nextWebhookId : Nat
  nextMappingId : Nat
  deriving DecidableEq, Repr

/-- `INSERT OR REPLACE INTO groups` keyed on the primary key group_id:
replace in place on conflict, append otherwise. -/
def upsertByGroupId (rows : List GroupRow) (g : Int) (n : String) : List GroupRow :=
  if rows.any (fun r => r.group_id == g) then
    rows.map (fun r => if r.group_id == g then ⟨g, n⟩ else r)
  else
    rows ++ [⟨g, n⟩]

/-- db_schema.add_group: INSERT OR REPLACE INTO groups (group_id, group_name). -/
def add_group (s : Store) (g : Int) (n : String) : Store :=
  { s with groups := upsertByGroupId s.groups g n }

/-- `INSERT OR REPLACE INTO topics` keyed on the primary key topic_id. -/
def upsertByTopicId (rows : List TopicRow) (g t : Int) (n : String) : List TopicRow :=
  if rows.any (fun r => r.topic_id == t) then
    rows.map (fun r => if r.topic_id == t then ⟨t, g, n⟩ else r)
  else
    rows ++ [⟨t, g, n⟩]

/-- db_schema.add_topic: INSERT OR REPLACE INTO topics (topic_id, group_id, topic_name).
No foreign-key check is performed: the connection never enables
`PRAGMA foreign_keys`, so the declared FK on group_id is not enforced. -/
def add_topic (s : Store) (g t : Int) (n : String) : Store :=
  { s with topics := upsertByTopicId s.topics g t n }

/-- db_schema.add_webhook: INSERT INTO webhooks (url, description), returning
`cursor.lastrowid` (the freshly allocated AUTOINCREMENT id). -/
def add_webhook (s : Store) (url : String) (d : Option String) : Nat × Store :=
  (s.nextWebhookId,
    { s with
        webhooks := s.webhooks ++ [⟨s.nextWebhookId, url, d⟩]
        nextWebhookId := s.nextWebhookId + 1 })

/-- db_schema.map_topic_to_webhook: INSERT OR REPLACE INTO topic_webhook_mapping.
The conflict target is UNIQUE(topic_id, webhook_id); REPLACE deletes any
conflicting row and the insert allocates a fresh mapping_id rowid. -/
def map_topic_to_webhook (s : Store) (t : Int) (w : Nat) : Store :=
  { s with
      mappings :=
        s.mappings.filter (fun m => !(m.topic_id == t && m.webhook_id == w))
          ++ [⟨s.nextMappingId, t, w⟩]
      nextMappingId := s.nextMappingId + 1 }

/-- Minimum of a list of naturals, `none` on the empty list. -/
def minList : List Nat → Option Nat
  | [] => none
  | x :: xs =>
    match minList xs with
    | none => some x
    | some y => some (min x y)

/-- db_schema.get_webhook_for_topic: the join
`SELECT w.url FROM webhooks w JOIN topic_webhook_mapping m ON w.webhook_id =
m.webhook_id WHERE m.topic_id = ?` followed by `fetchone()`.  SQLite scans
the unique index of the mapping table, so the first joined row is the
mapping of this topic with the smallest webhook_id that has a matching
webhooks row.  `topicJoinWids` is the set of webhook ids the join yields. -/
def topicJoinWids (s : Store) (t : Int) : List Nat :=
  (s.mappings.filter (fun m =>
    m.topic_id == t && s.webhooks.any (fun w => w.webhook_id == m.webhook_id))).map
    (fun m => m.webhook_id)

/-- The url of the first joined row, see the doc comment right above. -/
def get_webhook_for_topic (s : Store) (t : Int) : Option String :=
  match minList (topicJoinWids s t) with
  | none => none
  | some wid => (s.webhooks.find? (fun w => w.webhook_id == wid)).map (fun w => w.url)

/-- The first row of `SELECT webhook_id FROM topic_webhook_mapping WHERE
topic_id = ?` (fetchone, index scan order: smallest webhook_id). -/
def firstWebhookIdFor (s : Store) (t : Int) : Option Nat :=
  minList ((s.mappings.filter (fun m => m.topic_id == t)).map (fun m => m.webhook_id))

/-- db_schema.delete_configuration: fetch the first mapping row of the topic;
if none, return False.  Otherwise delete every mapping of the topic, delete
the fetched webhook id when no remaining mapping references it, delete the
topic row, and return True. -/
def delete_configuration (s : Store) (t : Int) : Bool × Store :=
  match firstWebhookIdFor s t with
  | none => (false, s)
  | some wid =>
    (true,
      { s with
          topics := s.topics.filter (fun r => !(r.topic_id == t))
          webhooks :=
            if (s.mappings.filter (fun m => !(m.topic_id == t))).any
                (fun m => m.webhook_id == wid) then
              s.webhooks
            else
              s.webhooks.filter (fun w => !(w.webhook_id == wid))
          mappings := s.mappings.filter (fun m => !(m.topic_id == t)) })

/-- bot.TelegramForwarder.add_configuration: add_group, add_topic,
add_webhook, map_topic_to_webhook in sequence. -/
def add_configuration (s : Store) (g : Int) (gn : String) (t : Int) (tn : String)
    (url : String) (d : Option String) : Store :=
  let s1 := add_group s g gn
  let s2 := add_topic s1 g t tn
  let p := add_webhook s2 url d
  map_topic_to_webhook p.2 t p.1

/-- Telethon sender entity as used by handle_new_message: id, optional
username, optional first_name. -/
structure Sender where
  id : Int
  username : Option String
  first_name : Option String
  deriving DecidableEq, Repr

/-- MessageReplyHeader: reply_to_top_id and reply_to_msg_id, each possibly
absent (None).  An absent header is modelled by `Option ReplyHeader` at the
message. -/
structure ReplyHeader where
  reply_to_top_id : Option Int
  reply_to_msg_id : Option Int
  deriving DecidableEq, Repr

/-- The chat entity: id and title. -/
structure Chat where
  id : Int
  title : String
  deriving DecidableEq, Repr

/-- The inbound Telegram message as consumed by handle_new_message. -/
structure InboundMessage where
  id : Int
  is_group : Bool
  reply_to : Option ReplyHeader
  text : Option String
  date : String
  media : Bool
  deriving DecidableEq, Repr

/-- Python truthiness of an optional integer: None and 0 are falsy. -/
def truthyOpt : Option Int → Bool
  | none => false
  | some v => v != 0

/-- Python `a or b` on optional integers: `b` when `a` is falsy. -/
def pyOrOpt (a b : Option Int) : Option Int :=
  if truthyOpt a then a else b

/-- bot.py lines 81-83: `topic_id = message.reply_to.reply_to_top_id or
message.reply_to.reply_to_msg_id` when reply_to is a MessageReplyHeader,
else no topic id. -/
def extractTopicId (msg : InboundMessage) : Option Int :=
  match msg.reply_to with
  | some r => pyOrOpt r.reply_to_top_id r.reply_to_msg_id
  | none => none

/-- The normalized per-message record `message_data` built at bot.py lines
104-115.  Fields whose Python value may be None are Options; `username` is
`sender.username if sender else "Unknown"` and `content`/`file` are only
set later by the media branch. -/
structure MessageData where
  message_id : Int
  topic_id : Int
  chat_id : Int
  chat_title : String
  from_id : Option Int
  from_username : Option String
  text : Option String
  date : String
  username : Option String
  avatar_url : Option String
  file : Option String
  content : Option String
  deriving DecidableEq, Repr

/-- The derived placeholder avatar:
`https://cdn.discordapp.com/embed/avatars/{sender.id % 5}.png`. -/
def avatarUrl (id : Int) : String :=
  "https://cdn.discordapp.com/embed/avatars/" ++ toString (id % 5) ++ ".png"

/-- bot.py lines 104-115: build message_data from the message, chat, the
(possibly absent) sender and the extracted topic id. -/
def normalizeMessage (msg : InboundMessage) (chat : Chat) (sender : Option Sender)
    (tid : Int) : MessageData :=
  { message_id := msg.id
    topic_id := tid
    chat_id := chat.id
    chat_title := chat.title
    from_id := sender.map (fun s => s.id)
    from_username := sender.bind (fun s => s.username)
    text := msg.text
    date := msg.date
    username :=
      match sender with
      | some s => s.username
      | none => some "Unknown"
    avatar_url := sender.map (fun s => avatarUrl s.id)
    file := none
    content := none }

/-- Does `as` start `bs`, character by character. -/
def startsWithList : List Char → List Char → Bool
  | [], _ => true
  | _ :: _, [] => false
  | a :: as, b :: bs => a == b && startsWithList as bs

/-- Python substring test `needle in hay` on character lists. -/
def listContainsSub (needle : List Char) : List Char → Bool
  | [] => needle.isEmpty
  | c :: t => startsWithList needle (c :: t) || listContainsSub needle t

/-- Python `webhook_url.lower()` as a character list. -/
def lowerChars (s : String) : List Char :=
  s.toList.map Char.toLower

/-- bot.py destination classification: `'discord' in webhook_url.lower()`. -/
def containsDiscord (url : String) : Bool :=
  listContainsSub "discord".toList (lowerChars url)

/-- Discord embed author object of the payload built at bot.py lines 162-165. -/
structure EmbedAuthor where
  name : Option String
  icon_url : Option String
  deriving DecidableEq, Repr

/-- Discord embed object built at bot.py lines 159-174. -/
structure Embed where
  description : Option String
  color : Nat
  author : EmbedAuthor
  timestamp : String
  image : Option String
  deriving DecidableEq, Repr

/-- Discord webhook payload (bot.py lines 156-174). -/
structure DiscordPayload where
  username : Option String
  avatar_url : Option String
  embeds : List Embed
  deriving DecidableEq, Repr

/-- bot.py lines 156-174: the Provider A (Discord) payload.  dict.get with a
present key returns the stored value even when it is None, so the defaults
of `.get("username", "Unknown")` and `.get("text", "")` never apply for
normalized records (both keys are always present). -/
def discordPayload (md : MessageData) : DiscordPayload :=
  { username := md.username
    avatar_url := md.avatar_url
    embeds := [{ description := md.text
                 color := 3447003
                 author := { name := md.username, icon_url := md.avatar_url }
                 timestamp := md.date
                 image := if md.file.isSome then some "attachment://image.jpg" else none }] }

/-- The wire body of one outbound POST (bot.py lines 177-210). -/
inductive WirePayload where
  | discordMultipart (payload : DiscordPayload) (filePath : String) (fileName : String)
  | discordJson (payload : DiscordPayload)
  | genericJson (text : Option String) (username : Option String)
  deriving DecidableEq, Repr

/-- One outbound HTTP POST request. -/
structure PostRequest where
  url : String
  payload : WirePayload
  deriving DecidableEq, Repr

/-- bot.forward_to_webhook as the list of POSTs one call issues: exactly one
POST in each of the three branches (Discord with file, Discord text-only,
default/Slack format), and no retry loop anywhere. -/
def forward_to_webhook (url : String) (md : MessageData) : List PostRequest :=
  if containsDiscord url then
    match md.file with
    | some f => [{ url := url, payload := .discordMultipart (discordPayload md) f "image.jpg" }]
    | none => [{ url := url, payload := .discordJson (discordPayload md) }]
  else
    [{ url := url, payload := .genericJson md.text md.username }]

/-- An HTTP response: status code and body text. -/
structure HttpResponse where
  status : Nat
  body : String
  deriving DecidableEq, Repr

/-- Result of the status check after a POST: either silently accepted, or
logged as an error together with the status and the response body. -/
inductive DeliveryOutcome where
  | ok
  | failedLogged (status : Nat) (body : String)
  deriving DecidableEq, Repr

/-- bot.py lines 186-188 / 195-197 / 208-210:
`if response.status not in [200, 204]: logger.error(status); logger.error(await
response.text())`. -/
def classifyResponse (r : HttpResponse) : DeliveryOutcome :=
  if r.status == 200 || r.status == 204 then .ok
  else .failedLogged r.status r.body

/-- Outcome of one run of the handle_new_message event handler. -/
inductive HandlerResult where
  | ignored (reason : String)
  | errored (reason : String)
  | delivered (url : String) (md : MessageData)
  deriving DecidableEq, Repr

/-- The message_data that reaches forward_to_webhook: normalization plus the
media branch of bot.py lines 118-134 (file and content keys are only added
when the message has media and the webhook is a Discord one; the download
is modelled as succeeding with a fixed transient path). -/
def routedMessageData (msg : InboundMessage) (chat : Chat) (snd : Sender) (tid : Int)
    (url : String) : MessageData :=
  let md := normalizeMessage msg chat (some snd) tid
  if msg.media && containsDiscord url then
    { md with file := some "downloads/media", content := some (msg.text.getD "") }
  else md

/-- bot.py handle_new_message (lines 64-148), as a function of the store and
the event data.  The steps, in source order: drop non-group messages; extract
the topic id and drop messages with no truthy topic id; resolve the webhook
URL and drop on `if not webhook_url` (line 97), i.e. both when the lookup
yields no row and when the stored URL is the falsy empty string; evaluate the
f-string `sender.username or sender.first_name` of the info log at line 101,
which raises AttributeError when sender is None (caught by the surrounding
try/except, so the message is discarded); build message_data; forward. -/
def handle_new_message (s : Store) (msg : InboundMessage) (chat : Chat)
    (sender : Option Sender) : HandlerResult :=
  if !msg.is_group then .ignored "not a group message"
  else if !truthyOpt (extractTopicId msg) then .ignored "no topic"
  else
    match get_webhook_for_topic s ((extractTopicId msg).getD 0) with
    | none => .ignored "no webhook for topic"
    | some url =>
      if url == "" then .ignored "no webhook for topic"
      else
        match sender with
        | none => .errored "AttributeError on sender.username"
        | some snd =>
          .delivered url (routedMessageData msg chat snd ((extractTopicId msg).getD 0) url)

/-- The outbound POSTs of one handler run: the single forward_to_webhook
call when a message is dispatched, nothing otherwise. -/
def handlerPosts : HandlerResult → List PostRequest
  | .delivered url md => forward_to_webhook url md
  | _ => []

/-- The freshly initialized database: empty tables, both rowid counters at 1. -/
def emptyStore : Store :=
  { groups := [], topics := [], webhooks := [], mappings := []
    nextWebhookId := 1, nextMappingId := 1 }

/-- A store in which topic 7 of group -100 fans out to two webhooks (ids 1
and 2), each referenced by no other topic. -/
def storeTwoHooks : Store :=
  { groups := [⟨-100, "Ops"⟩]
    topics := [⟨7, -100, "alerts"⟩]
    webhooks := [⟨1, "https://discord.com/api/webhooks/x", none⟩,
                 ⟨2, "https://hooks.example.com/y", none⟩]
    mappings := [⟨1, 7, 1⟩, ⟨2, 7, 2⟩]
    nextWebhookId := 3
    nextMappingId := 3 }

/-- A store in which topic 7 of group -100 maps to exactly one webhook. -/
def storeOneHook : Store :=
  { groups := [⟨-100, "Ops"⟩]
    topics := [⟨7, -100, "alerts"⟩]
    webhooks := [⟨1, "https://discord.com/api/webhooks/x", none⟩]
    mappings := [⟨1, 7, 1⟩]
    nextWebhookId := 2
    nextMappingId := 2 }

/-- An inbound group message in the reply thread anchored at message 7. -/
def msg7 : InboundMessage :=
  { id := 55, is_group := true, reply_to := some ⟨some 7, some 41⟩
    text := some "server down", date := "2026-01-01T00:00:00+00:00", media := false }

/-- An inbound group message with no reply-thread anchor and no reply target. -/
def msgNoTopic : InboundMessage :=
  { id := 56, is_group := true, reply_to := none
    text := some "hello", date := "2026-01-01T00:00:00+00:00", media := false }

/-- The chat the fixture messages arrive from. -/
def chat7 : Chat := { id := -100, title := "Ops" }

/-- A resolvable sender. -/
def sender1 : Sender := { id := 9, username := some "alice", first_name := some "Alice" }

/-- A store whose topic 7 already maps to an older webhook with a different URL. -/
def storeOldHook : Store :=
  { groups := [⟨-100, "Ops"⟩]
    topics := [⟨7, -100, "alerts"⟩]
    webhooks := [⟨1, "https://old.example.com/hook", none⟩]
    mappings := [⟨1, 7, 1⟩]
    nextWebhookId := 2
    nextMappingId := 2 }

/-! ### Helper lemmas -/

theorem forward_to_webhook_length (url : String) (md : MessageData) :
    (forward_to_webhook url md).length = 1 := by
  unfold forward_to_webhook
  by_cases h : containsDiscord url = true
  · rw [if_pos h]
    cases md.file <;> rfl
  · rw [if_neg h]
    rfl

theorem minList_eq_none {l : List Nat} : minList l = none ↔ l = [] := by
  cases l with
  | nil => simp [minList]
  | cons x xs =>
    unfold minList
    cases hm : minList xs <;> simp

theorem firstWebhookIdFor_eq_none {s : Store} {t : Int} :
    firstWebhookIdFor s t = none ↔ s.mappings.filter (fun m => m.topic_id == t) = [] := by
  unfold firstWebhookIdFor
  rw [minList_eq_none, List.map_eq_nil_iff]

theorem filter_nil_iff_any_false {α : Type} {l : List α} {p : α → Bool} :
    l.filter p = [] ↔ l.any p = false := by
  rw [List.filter_eq_nil_iff, List.any_eq_false]

theorem find_skip {α : Type} {p : α → Bool} : ∀ {l1 l2 : List α},
    (∀ w ∈ l1, p w = false) → (l1 ++ l2).find? p = l2.find? p := by
  intro l1 l2 h
  induction l1 with
  | nil => rfl
  | cons a as ih =>
    have ha : ¬ p a = true := by
      have := h a (by simp)
      simp [this]
    rw [List.cons_append, List.find?_cons_of_neg _ ha]
    exact ih (fun w hw => h w (by simp [hw]))

/-- The final store of add_configuration, written out. -/
theorem add_configuration_eq (s : Store) (g : Int) (gn : String) (t : Int) (tn : String)
    (url : String) (d : Option String) :
    add_configuration s g gn t tn url d =
      { groups := upsertByGroupId s.groups g gn
        topics := upsertByTopicId s.topics g t tn
        webhooks := s.webhooks ++ [⟨s.nextWebhookId, url, d⟩]
        mappings :=
          s.mappings.filter
              (fun m => !(m.topic_id == t && m.webhook_id == s.nextWebhookId))
            ++ [⟨s.nextMappingId, t, s.nextWebhookId⟩]
        nextWebhookId := s.nextWebhookId + 1
        nextMappingId := s.nextMappingId + 1 } := rfl

theorem upsertByGroupId_idem (rows : List GroupRow) (g : Int) (n : String) :
    upsertByGroupId (upsertByGroupId rows g n) g n = upsertByGroupId rows g n := by
  unfold upsertByGroupId
  by_cases h : rows.any (fun r => r.group_id == g) = true
  · rw [if_pos h]
    have hany2 : (rows.map (fun r => if r.group_id == g then (⟨g, n⟩ : GroupRow) else r)).any
        (fun r => r.group_id == g) = true := by
      rw [List.any_eq_true] at h ⊢
      obtain ⟨r, hr, hrg⟩ := h
      refine ⟨⟨g, n⟩, List.mem_map.mpr ⟨r, hr, by simp [hrg]⟩, by simp⟩
    rw [if_pos hany2, List.map_map]
    refine List.map_congr_left (fun r _ => ?_)
    by_cases hr : r.group_id == g
    · simp [Function.comp, hr]
    · simp [Function.comp, hr]
  · rw [if_neg h]
    have hnone : ∀ r ∈ rows, (r.group_id == g) = false := by
      intro r hr
      cases hq : (r.group_id == g)
      · rfl
      · exact absurd (List.any_eq_true.mpr ⟨r, hr, hq⟩) h
    have hany2 : ((rows ++ [(⟨g, n⟩ : GroupRow)]).any (fun r => r.group_id == g)) = true := by
      rw [List.any_eq_true]
      exact ⟨⟨g, n⟩, by simp, by simp⟩
    rw [if_pos hany2, List.map_append]
    have hrows : rows.map (fun r => if r.group_id == g then (⟨g, n⟩ : GroupRow) else r) = rows := by
      have := List.map_congr_left (l := rows)
        (f := fun r => if r.group_id == g then (⟨g, n⟩ : GroupRow) else r) (g := id)
        (fun r hr => by simp [hnone r hr])
      simpa using this
    rw [hrows]
    simp

theorem upsertByTopicId_idem (rows : List TopicRow) (g t : Int) (n : String) :
    upsertByTopicId (upsertByTopicId rows g t n) g t n = upsertByTopicId rows g t n := by
  unfold upsertByTopicId
  by_cases h : rows.any (fun r => r.topic_id == t) = true
  · rw [if_pos h]
    have hany2 : (rows.map (fun r => if r.topic_id == t then (⟨t, g, n⟩ : TopicRow) else r)).any
        (fun r => r.topic_id == t) = true := by
      rw [List.any_eq_true] at h ⊢
      obtain ⟨r, hr, hrt⟩ := h
      refine ⟨⟨t, g, n⟩, List.mem_map.mpr ⟨r, hr, by simp [hrt]⟩, by simp⟩
    rw [if_pos hany2, List.map_map]
    refine List.map_congr_left (fun r _ => ?_)
    by_cases hr : r.topic_id == t
    · simp [Function.comp, hr]
    · simp [Function.comp, hr]
  · rw [if_neg h]
    have hnone : ∀ r ∈ rows, (r.topic_id == t) = false := by
      intro r hr
      cases hq : (r.topic_id == t)
      · rfl
      · exact absurd (List.any_eq_true.mpr ⟨r, hr, hq⟩) h
    have hany2 : ((rows ++ [(⟨t, g, n⟩ : TopicRow)]).any (fun r => r.topic_id == t)) = true := by
      rw [List.any_eq_true]
      exact ⟨⟨t, g, n⟩, by simp, by simp⟩
    rw [if_pos hany2, List.map_append]
    have hrows : rows.map (fun r => if r.topic_id == t then (⟨t, g, n⟩ : TopicRow) else r) = rows := by
      have := List.map_congr_left (l := rows)
        (f := fun r => if r.topic_id == t then (⟨t, g, n⟩ : TopicRow) else r) (g := id)
        (fun r hr => by simp [hnone r hr])
      simpa using this
    rw [hrows]
    simp

theorem map_topic_to_webhook_count_idem (s : Store) (t : Int) (w : Nat) :
    (map_topic_to_webhook (map_topic_to_webhook s t w) t w).mappings.length
      = (map_topic_to_webhook s t w).mappings.length := by
  unfold map_topic_to_webhook
  rw [List.filter_append]
  have h1 : (s.mappings.filter (fun m => !(m.topic_id == t && m.webhook_id == w))).filter
      (fun m => !(m.topic_id == t && m.webhook_id == w))
      = s.mappings.filter (fun m => !(m.topic_id == t && m.webhook_id == w)) := by
    rw [List.filter_eq_self]
    intro a ha
    exact (List.mem_filter.mp ha).2
  have h2 : ([(⟨s.nextMappingId, t, w⟩ : MappingRow)].filter
      (fun m => !(m.topic_id == t && m.webhook_id == w))) = [] := by
    simp
  rw [h1, h2]
  simp

theorem add_configuration_counts (s : Store) (g : Int) (gn : String) (t : Int) (tn : String)
    (url : String) (d : Option String)
    (hwf : ∀ m ∈ s.mappings, m.webhook_id < s.nextWebhookId) :
    (add_configuration s g gn t tn url d).webhooks.length = s.webhooks.length + 1 ∧
    (add_configuration s g gn t tn url d).mappings.length = s.mappings.length + 1 ∧
    (∀ m ∈ (add_configuration s g gn t tn url d).mappings,
      m.webhook_id < (add_configuration s g gn t tn url d).nextWebhookId) := by
  rw [add_configuration_eq]
  have hkeep : s.mappings.filter
      (fun m => !(m.topic_id == t && m.webhook_id == s.nextWebhookId)) = s.mappings := by
    rw [List.filter_eq_self]
    intro m hm
    have hne : m.webhook_id ≠ s.nextWebhookId := Nat.ne_of_lt (hwf m hm)
    simp [hne]
  refine ⟨by simp, ?_, ?_⟩
  · rw [hkeep]
    simp
  · intro m hm
    rw [hkeep] at hm
    rcases List.mem_append.mp hm with hold | hnew
    · exact Nat.lt_succ_of_lt (hwf m hold)
    · have : m = ⟨s.nextMappingId, t, s.nextWebhookId⟩ := by simpa using hnew
      rw [this]
      exact Nat.lt_succ_self _

theorem delete_configuration_none_eq (s : Store) (t : Int)
    (h : firstWebhookIdFor s t = none) :
    delete_configuration s t = (false, s) := by
  unfold delete_configuration
  rw [h]

theorem delete_configuration_some_fst (s : Store) (t : Int) (wid : Nat)
    (h : firstWebhookIdFor s t = some wid) :
    (delete_configuration s t).1 = true := by
  unfold delete_configuration
  rw [h]

theorem delete_configuration_some_mappings (s : Store) (t : Int) (wid : Nat)
    (h : firstWebhookIdFor s t = some wid) :
    (delete_configuration s t).2.mappings
      = s.mappings.filter (fun m => !(m.topic_id == t)) := by
  unfold delete_configuration
  rw [h]

theorem delete_configuration_some_topics (s : Store) (t : Int) (wid : Nat)
    (h : firstWebhookIdFor s t = some wid) :
    (delete_configuration s t).2.topics
      = s.topics.filter (fun r => !(r.topic_id == t)) := by
  unfold delete_configuration
  rw [h]

theorem delete_configuration_some_webhooks (s : Store) (t : Int) (wid : Nat)
    (h : firstWebhookIdFor s t = some wid) :
    (delete_configuration s t).2.webhooks
      = (if (s.mappings.filter (fun m => !(m.topic_id == t))).any
            (fun m => m.webhook_id == wid) then
          s.webhooks
        else s.webhooks.filter (fun w => !(w.webhook_id == wid))) := by
  unfold delete_configuration
  rw [h]

/-! ### Claim theorems -/

/-- Claim C4: the delivery engine accepts exactly the statuses 200 and 204;
every other status (including other 2xx codes such as 201) is logged as an
error together with the status code and the response body; and each call of
forward_to_webhook issues exactly one HTTP POST (so no retry ever happens
for a message/destination pair). -/
theorem delivery_status_strict_and_single_post :
    (∀ r : HttpResponse, classifyResponse r = .ok ↔ (r.status = 200 ∨ r.status = 204)) ∧
    (∀ r : HttpResponse, classifyResponse r ≠ .ok →
      classifyResponse r = .failedLogged r.status r.body) ∧
    classifyResponse ⟨201, "created"⟩ = .failedLogged 201 "created" ∧
    (∀ (url : String) (md : MessageData), (forward_to_webhook url md).length = 1) := by
  refine ⟨?_, ?_, by decide, fun url md => forward_to_webhook_length url md⟩
  · intro r
    unfold classifyResponse
    by_cases hc : (r.status == 200 || r.status == 204) = true
    · rw [if_pos hc]
      simp only [Bool.or_eq_true, beq_iff_eq] at hc
      simp [hc]
    · rw [if_neg hc]
      simp only [Bool.or_eq_true, beq_iff_eq] at hc
      push_neg at hc
      simp [hc.1, hc.2]
  · intro r h
    unfold classifyResponse at h ⊢
    by_cases hc : (r.status == 200 || r.status == 204) = true
    · rw [if_pos hc] at h
      exact absurd rfl h
    · rw [if_neg hc]

/-- Witness for C4: the theorem applied at the concrete response 500/"boom",
whose status is neither 200 nor 204. -/
theorem delivery_status_strict_and_single_post_witness :
    classifyResponse ⟨500, "boom"⟩ = .failedLogged 500 "boom" :=
  delivery_status_strict_and_single_post.2.1 ⟨500, "boom"⟩ (by decide)

/-- Claim C7: the Provider A (Discord) payload always carries an embeds
array of length exactly one, whose color is the fixed constant 3447003 and
whose author.name is the normalized username field; normalization sets that
field to the sender username when a sender exists and to "Unknown" when the
sender is absent. -/
theorem discord_payload_shape :
    (∀ md : MessageData, (discordPayload md).embeds.length = 1) ∧
    (∀ md : MessageData,
      ((discordPayload md).embeds.head?.map (fun e => e.color)) = some 3447003) ∧
    (∀ md : MessageData,
      ((discordPayload md).embeds.head?.map (fun e => e.author.name)) = some md.username) ∧
    (∀ (msg : InboundMessage) (chat : Chat) (tid : Int),
      (normalizeMessage msg chat none tid).username = some "Unknown") ∧
    (∀ (msg : InboundMessage) (chat : Chat) (snd : Sender) (tid : Int),
      (normalizeMessage msg chat (some snd) tid).username = snd.username) :=
  ⟨fun _ => rfl, fun _ => rfl, fun _ => rfl, fun _ _ _ => rfl, fun _ _ _ _ => rfl⟩

/-- Claim C2 (code bug): add_topic performs `INSERT OR REPLACE INTO topics`
on a connection that never enables `PRAGMA foreign_keys`, so inserting a
topic whose group_id is absent from the groups table succeeds instead of
failing with a precondition error: on the empty database, add_topic with
group 1 (unknown) inserts the topic row and leaves groups empty, and a
repeat call with identical arguments leaves the whole store unchanged. -/
theorem add_topic_no_group_check :
    (add_topic emptyStore 1 2 "alerts").groups = [] ∧
    (add_topic emptyStore 1 2 "alerts").topics = [⟨2, 1, "alerts"⟩] ∧
    add_topic (add_topic emptyStore 1 2 "alerts") 1 2 "alerts"
      = add_topic emptyStore 1 2 "alerts" := by
  exact ⟨rfl, rfl, by decide⟩

/-- Claim C6 (code bug): on a configured topic whose sender is unresolvable
(None), handle_new_message aborts with the AttributeError raised by the
sender.username access in the info-log f-string at bot.py line 101, issuing
zero POSTs, even though the normalization code it never reaches would have
produced from_id/from_username/avatar_url None and username "Unknown". -/
theorem sender_none_discarded_not_normalized :
    handle_new_message storeOneHook msg7 chat7 none
      = .errored "AttributeError on sender.username" ∧
    handlerPosts (handle_new_message storeOneHook msg7 chat7 none) = [] ∧
    (normalizeMessage msg7 chat7 none 7).username = some "Unknown" ∧
    (normalizeMessage msg7 chat7 none 7).from_id = none ∧
    (normalizeMessage msg7 chat7 none 7).from_username = none ∧
    (normalizeMessage msg7 chat7 none 7).avatar_url = none := by
  exact ⟨by decide, by decide, rfl, rfl, rfl, rfl⟩

/-- Counterexample to claim C1 as stated: on a store whose topic 7 is mapped
to two webhooks, routing one inbound message of that topic produces exactly
one delivery attempt, not two — get_webhook_for_topic returns a single
fetchone row and handle_new_message forwards once. -/
theorem fanout_single_attempt_counterexample :
    (storeTwoHooks.mappings.filter (fun m => m.topic_id == 7)).length = 2 ∧
    (handlerPosts (handle_new_message storeTwoHooks msg7 chat7 (some sender1))).length = 1 := by
  exact ⟨by decide, by decide⟩

/-- Counterexample to claim C3 as stated: deleting the configuration of
topic 7 in a store where the topic maps to the two exclusively-used webhooks
1 and 2 returns True and leaves webhook 2 in the webhooks table even though
no remaining mapping references it, refuting the claimed "removed if and
only if no remaining mapping references it". -/
theorem delete_configuration_orphan_counterexample :
    (delete_configuration storeTwoHooks 7).1 = true ∧
    ((delete_configuration storeTwoHooks 7).2.mappings.any
        (fun m => m.webhook_id == 2)) = false ∧
    ((delete_configuration storeTwoHooks 7).2.webhooks.any
        (fun w => w.webhook_id == 2)) = true := by
  exact ⟨by decide, by decide, by decide⟩

/-- Counterexample to claim C5 as stated: starting from a store whose topic
7 already maps to webhook 1 with a different URL, the
upsertGroup/upsertTopic/createWebhook/mapTopicToWebhook sequence with a new
URL is followed by resolveWebhook returning the old URL (the joined row with
the smallest webhook id), not the URL just inserted. -/
theorem roundtrip_stale_counterexample :
    get_webhook_for_topic
        (add_configuration storeOldHook (-100) "Ops" 7 "alerts"
          "https://new.example.com/hook" none) 7
      = some "https://old.example.com/hook" ∧
    (("https://old.example.com/hook" : String) == "https://new.example.com/hook") = false := by
  exact ⟨by decide, by decide⟩

/-- Claim C1 (amended): routing one inbound group message of a topic that
resolves to a non-empty webhook URL (the falsy check at bot.py line 97
discards a stored empty URL) produces exactly one delivery attempt, to the
single URL returned by the store lookup, regardless of how many webhooks the
topic is mapped to. -/
theorem routing_single_attempt (s : Store) (msg : InboundMessage) (chat : Chat)
    (snd : Sender) (tid : Int) (url : String)
    (hg : msg.is_group = true) (ht : extractTopicId msg = some tid) (h0 : tid ≠ 0)
    (hw : get_webhook_for_topic s tid = some url) (hurl : url ≠ "") :
    handle_new_message s msg chat (some snd)
      = .delivered url (routedMessageData msg chat snd tid url) ∧
    (handlerPosts (handle_new_message s msg chat (some snd))).length = 1 := by
  have h1 : truthyOpt (some tid) = true := by
    simp [truthyOpt]
    exact h0
  have hmain : handle_new_message s msg chat (some snd)
      = .delivered url (routedMessageData msg chat snd tid url) := by
    unfold handle_new_message
    rw [hg, ht, h1]
    simp [hw, hurl]
  refine ⟨hmain, ?_⟩
  rw [hmain]
  exact forward_to_webhook_length url _

/-- Witness for C1 (amended): the theorem applied to the one-webhook store
and the fixture message of topic 7. -/
theorem routing_single_attempt_witness :
    handle_new_message storeOneHook msg7 chat7 (some sender1)
      = .delivered "https://discord.com/api/webhooks/x"
          (routedMessageData msg7 chat7 sender1 7 "https://discord.com/api/webhooks/x") ∧
    (handlerPosts (handle_new_message storeOneHook msg7 chat7 (some sender1))).length = 1 :=
  routing_single_attempt storeOneHook msg7 chat7 sender1 7
    "https://discord.com/api/webhooks/x" (by decide) (by decide) (by decide) (by decide)
    (by decide)

/-- Claim C8: topic extraction takes reply_to_top_id when it is present
(truthy), otherwise falls back to reply_to_msg_id; and when the extracted
topic id is absent the handler discards the message and issues zero POSTs. -/
theorem topic_extraction_pref_and_discard (msg : InboundMessage) (r : ReplyHeader) :
    (msg.reply_to = some r → truthyOpt r.reply_to_top_id = true →
      extractTopicId msg = r.reply_to_top_id) ∧
    (msg.reply_to = some r → truthyOpt r.reply_to_top_id = false →
      extractTopicId msg = r.reply_to_msg_id) ∧
    (truthyOpt (extractTopicId msg) = false →
      ∀ (s : Store) (chat : Chat) (sender : Option Sender),
        handlerPosts (handle_new_message s msg chat sender) = []) := by
  refine ⟨?_, ?_, ?_⟩
  · intro h htr
    simp [extractTopicId, pyOrOpt, h, htr]
  · intro h htr
    simp [extractTopicId, pyOrOpt, h, htr]
  · intro hfalse s chat sender
    unfold handle_new_message
    cases hg : msg.is_group <;> simp [hg, hfalse, handlerPosts]

/-- Witness for C8: the anchored fixture message extracts topic 7, and a
message with neither anchor nor reply target produces zero POSTs. -/
theorem topic_extraction_witness :
    extractTopicId msg7 = some 7 ∧
    handlerPosts (handle_new_message emptyStore msgNoTopic chat7 (some sender1)) = [] := by
  constructor
  · exact (topic_extraction_pref_and_discard msg7 ⟨some 7, some 41⟩).1 rfl (by decide)
  · exact (topic_extraction_pref_and_discard msgNoTopic ⟨none, none⟩).2.2 (by decide)
      emptyStore chat7 (some sender1)

/-- Claim C5 (amended): starting from any store in which the topic has no
existing mapping and the webhook-id allocator is ahead of every stored
webhook id (as on every store the operations produce), the
upsertGroup/upsertTopic/createWebhook/mapTopicToWebhook sequence followed by
resolveWebhook(topic) returns exactly the URL just inserted. -/
theorem roundtrip_fresh_topic (s : Store) (g t : Int) (gn tn url : String) (d : Option String)
    (hnomap : ∀ m ∈ s.mappings, m.topic_id ≠ t)
    (hwf : ∀ w ∈ s.webhooks, w.webhook_id < s.nextWebhookId) :
    get_webhook_for_topic (add_configuration s g gn t tn url d) t = some url := by
  rw [add_configuration_eq]
  unfold get_webhook_for_topic
  have hcands : topicJoinWids
      { groups := upsertByGroupId s.groups g gn
        topics := upsertByTopicId s.topics g t tn
        webhooks := s.webhooks ++ [⟨s.nextWebhookId, url, d⟩]
        mappings :=
          s.mappings.filter
              (fun m => !(m.topic_id == t && m.webhook_id == s.nextWebhookId))
            ++ [⟨s.nextMappingId, t, s.nextWebhookId⟩]
        nextWebhookId := s.nextWebhookId + 1
        nextMappingId := s.nextMappingId + 1 } t = [s.nextWebhookId] := by
    unfold topicJoinWids
    rw [List.filter_append]
    have hleft : (s.mappings.filter
        (fun m => !(m.topic_id == t && m.webhook_id == s.nextWebhookId))).filter
        (fun m => m.topic_id == t
          && (s.webhooks ++ [(⟨s.nextWebhookId, url, d⟩ : WebhookRow)]).any
            (fun w => w.webhook_id == m.webhook_id)) = [] := by
      rw [List.filter_eq_nil_iff]
      intro m hm
      have hmem := (List.mem_filter.mp hm).1
      have hne : (m.topic_id == t) = false := by
        cases hq : (m.topic_id == t)
        · rfl
        · exact absurd (by simpa using hq) (hnomap m hmem)
      simp [hne]
    have hright : ([(⟨s.nextMappingId, t, s.nextWebhookId⟩ : MappingRow)].filter
        (fun m => m.topic_id == t
          && (s.webhooks ++ [(⟨s.nextWebhookId, url, d⟩ : WebhookRow)]).any
            (fun w => w.webhook_id == m.webhook_id)))
        = [⟨s.nextMappingId, t, s.nextWebhookId⟩] := by
      simp
    rw [hleft, hright]
    simp
  have hfind : ((s.webhooks ++ [(⟨s.nextWebhookId, url, d⟩ : WebhookRow)]).find?
      (fun w => w.webhook_id == s.nextWebhookId)) = some ⟨s.nextWebhookId, url, d⟩ := by
    rw [find_skip (fun w hw => beq_eq_false_iff_ne.mpr (Nat.ne_of_lt (hwf w hw)))]
    simp [List.find?]
  rw [hcands]
  show ((s.webhooks ++ [(⟨s.nextWebhookId, url, d⟩ : WebhookRow)]).find?
      (fun w => w.webhook_id == s.nextWebhookId)).map (fun w => w.url) = some url
  rw [hfind]
  rfl

/-- Witness for C5 (amended): the theorem applied at the empty store. -/
theorem roundtrip_fresh_topic_witness :
    get_webhook_for_topic
        (add_configuration emptyStore (-100) "Ops" 7 "alerts"
          "https://hooks.example.com/y" none) 7
      = some "https://hooks.example.com/y" :=
  roundtrip_fresh_topic emptyStore (-100) 7 "Ops" "alerts" "https://hooks.example.com/y" none
    (by decide) (by decide)

/-- Claim C3 (amended): deleteConfiguration returns true exactly when a
mapping for the topic existed (and changes nothing when none did); on
success it removes every mapping row of the topic and the topic row, and
the orphan check is applied only to the single first-fetched webhook id:
that webhook remains present if and only if it was present before and a
remaining mapping still references it, while every other webhook row is
left in place. -/
theorem delete_configuration_first_webhook_only (s : Store) (t : Int) :
    ((delete_configuration s t).1 = s.mappings.any (fun m => m.topic_id == t)) ∧
    ((delete_configuration s t).1 = false → (delete_configuration s t).2 = s) ∧
    (∀ wid, firstWebhookIdFor s t = some wid →
      ((delete_configuration s t).2.mappings.filter (fun m => m.topic_id == t) = [] ∧
       (delete_configuration s t).2.topics.filter (fun r => r.topic_id == t) = [] ∧
       ((delete_configuration s t).2.webhooks.any (fun w => w.webhook_id == wid)
          = (s.webhooks.any (fun w => w.webhook_id == wid)
             && (delete_configuration s t).2.mappings.any (fun m => m.webhook_id == wid))) ∧
       (∀ w ∈ s.webhooks, w.webhook_id ≠ wid →
          w ∈ (delete_configuration s t).2.webhooks))) := by
  cases hf : firstWebhookIdFor s t with
  | none =>
    have hnil : s.mappings.filter (fun m => m.topic_id == t) = [] :=
      firstWebhookIdFor_eq_none.mp hf
    have hany : s.mappings.any (fun m => m.topic_id == t) = false :=
      filter_nil_iff_any_false.mp hnil
    rw [delete_configuration_none_eq s t hf]
    exact ⟨hany.symm, fun _ => rfl, fun wid hw => by cases hw⟩
  | some wid0 =>
    have h1 : ¬ (s.mappings.filter (fun m => m.topic_id == t) = []) := by
      intro hnil
      have h2 := firstWebhookIdFor_eq_none.mpr hnil
      rw [hf] at h2
      cases h2
    have hany : s.mappings.any (fun m => m.topic_id == t) = true := by
      cases ha : s.mappings.any (fun m => m.topic_id == t)
      · exact absurd (filter_nil_iff_any_false.mpr ha) h1
      · rfl
    refine ⟨by rw [delete_configuration_some_fst s t wid0 hf, hany], ?_, ?_⟩
    · intro hfalse
      rw [delete_configuration_some_fst s t wid0 hf] at hfalse
      cases hfalse
    intro wid hw
    injection hw with hww
    subst hww
    rw [delete_configuration_some_mappings s t wid0 hf,
        delete_configuration_some_topics s t wid0 hf,
        delete_configuration_some_webhooks s t wid0 hf]
    refine ⟨?_, ?_, ?_, ?_⟩
    · rw [List.filter_eq_nil_iff]
      intro m hm
      have := (List.mem_filter.mp hm).2
      simp only [Bool.not_eq_eq_eq_not, Bool.not_true] at this
      simp [this]
    · rw [List.filter_eq_nil_iff]
      intro r hr
      have := (List.mem_filter.mp hr).2
      simp only [Bool.not_eq_eq_eq_not, Bool.not_true] at this
      simp [this]
    · by_cases hc : ((s.mappings.filter (fun m => !(m.topic_id == t))).any
          (fun m => m.webhook_id == wid0)) = true
      · rw [if_pos hc, hc, Bool.and_true]
      · rw [if_neg hc]
        have hcf : ((s.mappings.filter (fun m => !(m.topic_id == t))).any
            (fun m => m.webhook_id == wid0)) = false := by
          cases hq : ((s.mappings.filter (fun m => !(m.topic_id == t))).any
              (fun m => m.webhook_id == wid0))
          · rfl
          · exact absurd hq hc
        rw [hcf, Bool.and_false]
        rw [← filter_nil_iff_any_false] at hcf ⊢
        rw [List.filter_eq_nil_iff] at hcf ⊢
        intro w hw2
        have hpred := (List.mem_filter.mp hw2).2
        simp only [Bool.not_eq_eq_eq_not, Bool.not_true] at hpred
        simp [hpred]
    · intro w hwmem hwne
      by_cases hc : ((s.mappings.filter (fun m => !(m.topic_id == t))).any
          (fun m => m.webhook_id == wid0)) = true
      · rw [if_pos hc]
        exact hwmem
      · rw [if_neg hc]
        exact List.mem_filter.mpr ⟨hwmem, by simp [hwne]⟩

/-- Witness for C3 (amended): the theorem applied at the one-webhook store
and topic 7, whose first-fetched webhook id is 1. -/
theorem delete_configuration_first_webhook_only_witness :
    (delete_configuration storeOneHook 7).2.mappings.filter (fun m => m.topic_id == 7) = [] ∧
    (delete_configuration storeOneHook 7).2.topics.filter (fun r => r.topic_id == 7) = [] ∧
    ((delete_configuration storeOneHook 7).2.webhooks.any (fun w => w.webhook_id == 1)
       = (storeOneHook.webhooks.any (fun w => w.webhook_id == 1)
          && (delete_configuration storeOneHook 7).2.mappings.any
            (fun m => m.webhook_id == 1))) := by
  obtain ⟨-, -, h⟩ := delete_configuration_first_webhook_only storeOneHook 7
  obtain ⟨h1, h2, h3, -⟩ := h 1 (by decide)
  exact ⟨h1, h2, h3⟩

/-- Claim C9: when a topic is mapped to two or more webhooks,
deleteConfiguration removes all of the topic's mapping rows and the topic
row but applies the orphan check only to the first-fetched webhook id: any
other webhook that was referenced only by this topic survives in the
webhooks table with no mapping referencing it. -/
theorem delete_configuration_orphans (s : Store) (t : Int) (wid : Nat) (w : WebhookRow)
    (hfirst : firstWebhookIdFor s t = some wid)
    (hw : w ∈ s.webhooks) (hne : w.webhook_id ≠ wid)
    (_hmapped : ∃ m ∈ s.mappings, m.topic_id = t ∧ m.webhook_id = w.webhook_id)
    (hexcl : ∀ m ∈ s.mappings, m.webhook_id = w.webhook_id → m.topic_id = t) :
    (delete_configuration s t).1 = true ∧
    w ∈ (delete_configuration s t).2.webhooks ∧
    ((delete_configuration s t).2.mappings.any
        (fun m => m.webhook_id == w.webhook_id) = false) ∧
    ((delete_configuration s t).2.mappings.any (fun m => m.topic_id == t) = false) ∧
    ((delete_configuration s t).2.topics.any (fun r => r.topic_id == t) = false) := by
  rw [delete_configuration_some_fst s t wid hfirst,
      delete_configuration_some_mappings s t wid hfirst,
      delete_configuration_some_topics s t wid hfirst,
      delete_configuration_some_webhooks s t wid hfirst]
  refine ⟨rfl, ?_, ?_, ?_, ?_⟩
  · by_cases hc : ((s.mappings.filter (fun m => !(m.topic_id == t))).any
        (fun m => m.webhook_id == wid)) = true
    · rw [if_pos hc]
      exact hw
    · rw [if_neg hc]
      exact List.mem_filter.mpr ⟨hw, by simp [hne]⟩
  · rw [← filter_nil_iff_any_false, List.filter_eq_nil_iff]
    intro m hm
    have hmem := (List.mem_filter.mp hm).1
    have hpred := (List.mem_filter.mp hm).2
    simp only [Bool.not_eq_eq_eq_not, Bool.not_true] at hpred
    intro hq
    have hmw : m.webhook_id = w.webhook_id := by simpa using hq
    have := hexcl m hmem hmw
    simp [this] at hpred
  · rw [← filter_nil_iff_any_false, List.filter_eq_nil_iff]
    intro m hm
    have hpred := (List.mem_filter.mp hm).2
    simp only [Bool.not_eq_eq_eq_not, Bool.not_true] at hpred
    simp [hpred]
  · rw [← filter_nil_iff_any_false, List.filter_eq_nil_iff]
    intro r hr
    have hpred := (List.mem_filter.mp hr).2
    simp only [Bool.not_eq_eq_eq_not, Bool.not_true] at hpred
    simp [hpred]

/-- Witness for C9: the theorem applied to the store whose topic 7 maps to
the exclusively-referenced webhooks 1 and 2; webhook 2 survives orphaned. -/
theorem delete_configuration_orphans_witness :
    (delete_configuration storeTwoHooks 7).1 = true ∧
    (⟨2, "https://hooks.example.com/y", none⟩ : WebhookRow)
      ∈ (delete_configuration storeTwoHooks 7).2.webhooks ∧
    ((delete_configuration storeTwoHooks 7).2.mappings.any
        (fun m => m.webhook_id == 2) = false) ∧
    ((delete_configuration storeTwoHooks 7).2.mappings.any
        (fun m => m.topic_id == 7) = false) ∧
    ((delete_configuration storeTwoHooks 7).2.topics.any
        (fun r => r.topic_id == 7) = false) :=
  delete_configuration_orphans storeTwoHooks 7 1 ⟨2, "https://hooks.example.com/y", none⟩
    (by decide) (by decide) (by decide) (by decide) (by decide)

/-- Claim C10: add_configuration is not idempotent although its group,
topic and mapping sub-operations keep their row counts on repetition: on any
store whose mapping rows reference only already-allocated webhook ids, each
of two successive identical calls grows both the webhooks table and the
mapping table by exactly one row (createWebhook always allocates a fresh
id, and the fresh (topic, webhook) pair is always new), while repeating
add_group or add_topic leaves the store unchanged and repeating
map_topic_to_webhook leaves the mapping row count unchanged. -/
theorem add_configuration_not_idempotent (s : Store) (g t : Int) (gn tn url : String)
    (d : Option String) (w : Nat)
    (hwf : ∀ m ∈ s.mappings, m.webhook_id < s.nextWebhookId) :
    ((add_configuration s g gn t tn url d).webhooks.length = s.webhooks.length + 1) ∧
    ((add_configuration s g gn t tn url d).mappings.length = s.mappings.length + 1) ∧
    ((add_configuration (add_configuration s g gn t tn url d) g gn t tn url d).webhooks.length
       = (add_configuration s g gn t tn url d).webhooks.length + 1) ∧
    ((add_configuration (add_configuration s g gn t tn url d) g gn t tn url d).mappings.length
       = (add_configuration s g gn t tn url d).mappings.length + 1) ∧
    (add_group (add_group s g gn) g gn = add_group s g gn) ∧
    (add_topic (add_topic s g t tn) g t tn = add_topic s g t tn) ∧
    ((map_topic_to_webhook (map_topic_to_webhook s t w) t w).mappings.length
       = (map_topic_to_webhook s t w).mappings.length) := by
  obtain ⟨h1, h2, h3⟩ := add_configuration_counts s g gn t tn url d hwf
  obtain ⟨h4, h5, -⟩ := add_configuration_counts _ g gn t tn url d h3
  refine ⟨h1, h2, h4, h5, ?_, ?_, map_topic_to_webhook_count_idem s t w⟩
  · unfold add_group
    simp [upsertByGroupId_idem]
  · unfold add_topic
    simp [upsertByTopicId_idem]

/-- Witness for C10: the theorem applied at the empty store. -/
theorem add_configuration_not_idempotent_witness :
    ((add_configuration emptyStore (-100) "Ops" 7 "alerts" "https://e.example/h" none).webhooks.length
       = emptyStore.webhooks.length + 1) ∧
    ((add_configuration emptyStore (-100) "Ops" 7 "alerts" "https://e.example/h" none).mappings.length
       = emptyStore.mappings.length + 1) ∧
    ((add_configuration (add_configuration emptyStore (-100) "Ops" 7 "alerts" "https://e.example/h" none)
        (-100) "Ops" 7 "alerts" "https://e.example/h" none).webhooks.length
       = (add_configuration emptyStore (-100) "Ops" 7 "alerts" "https://e.example/h" none).webhooks.length + 1) ∧
    ((add_configuration (add_configuration emptyStore (-100) "Ops" 7 "alerts" "https://e.example/h" none)
        (-100) "Ops" 7 "alerts" "https://e.example/h" none).mappings.length
       = (add_configuration emptyStore (-100) "Ops" 7 "alerts" "https://e.example/h" none).mappings.length + 1) ∧
    (add_group (add_group emptyStore (-100) "Ops") (-100) "Ops"
       = add_group emptyStore (-100) "Ops") ∧
    (add_topic (add_topic emptyStore (-100) 7 "alerts") (-100) 7 "alerts"
       = add_topic emptyStore (-100) 7 "alerts") ∧
    ((map_topic_to_webhook (map_topic_to_webhook emptyStore 7 1) 7 1).mappings.length
       = (map_topic_to_webhook emptyStore 7 1).mappings.length) :=
  add_configuration_not_idempotent emptyStore (-100) 7 "Ops" "alerts" "https://e.example/h"
    none 1 (by decide)

end TeleToDC
